import Mathlib

/-!
Verification of the Airflow notification channel
(`pkg/services/ngalert/notifier/channels/airflow.go`).

The development shallowly embeds the Go source: the opaque settings documents
are JSON values, `json.Unmarshal` into `map[string]interface\x7b\x7d` is an executable
parser classifying its three observable outcomes (error, JSON null leaving the
map nil, object), and `Notify` is a pure function returning the notifier
post-state together with an observable outcome (result pair, outbound webhook
command, structured body, log entries).  A `none` result of `Notify` models a
Go panic (assignment to a nil map).
-/

/-- JSON values, as produced by decoding into Go interface values.  Numbers
keep their source lexeme: the Go decoder turns them into float64, a detail no
claim touches, and re-serialization of numbers is outside every claim. -/
inductive JsonVal where
  | null : JsonVal
  | bool : Bool → JsonVal
  | num : String → JsonVal
  | str : String → JsonVal
  | arr : List JsonVal → JsonVal
  | obj : List (String × JsonVal) → JsonVal

instance : Inhabited JsonVal := ⟨JsonVal.null⟩

/-- Character constant: double quote. -/
def quoteChar : Char := Char.ofNat 34

/-- Character constant: single quote. -/
def squoteChar : Char := Char.ofNat 39

/-- Character constant: backslash. -/
def backslashChar : Char := Char.ofNat 92

/-- Character constant: comma. -/
def commaChar : Char := Char.ofNat 44

/-- Character constant: colon. -/
def colonChar : Char := Char.ofNat 58

/-- Character constant: left brace. -/
def lbraceChar : Char := Char.ofNat 123

/-- Character constant: right brace. -/
def rbraceChar : Char := Char.ofNat 125

/-- Character constant: left bracket. -/
def lbrackChar : Char := Char.ofNat 91

/-- Character constant: right bracket. -/
def rbrackChar : Char := Char.ofNat 93

/-- Character constant: minus sign. -/
def minusChar : Char := Char.ofNat 45

/-- Character constant: plus sign. -/
def plusChar : Char := Char.ofNat 43

/-- Character constant: dot. -/
def dotChar : Char := Char.ofNat 46

/-- JSON whitespace (space, tab, line feed, carriage return). -/
def isWsChar (c : Char) : Bool :=
  c == Char.ofNat 32 || c == Char.ofNat 9 || c == Char.ofNat 10 || c == Char.ofNat 13

/-- Decimal digit test. -/
def isDigitChar (c : Char) : Bool :=
  48 ≤ c.toNat && c.toNat ≤ 57

/-- Characters that may occur in a JSON number lexeme. -/
def isNumChar (c : Char) : Bool :=
  isDigitChar c || c == minusChar || c == plusChar || c == dotChar ||
    c == Char.ofNat 101 || c == Char.ofNat 69

/-- Drop leading JSON whitespace. -/
def skipWs : List Char → List Char
  | [] => []
  | c :: rest => if isWsChar c then skipWs rest else c :: rest

/-- Split off the longest leading run of number-lexeme characters. -/
def chompNum : List Char → (List Char × List Char)
  | [] => ([], [])
  | c :: rest =>
    if isNumChar c then
      let p := chompNum rest
      (c :: p.1, p.2)
    else ([], c :: rest)

/-- Drop a leading run of decimal digits. -/
def dropDigits : List Char → List Char
  | [] => []
  | c :: rest => if isDigitChar c then dropDigits rest else c :: rest

/-- Validate the integer part of a JSON number: 0, or a nonzero digit followed
by digits.  Returns the unconsumed remainder. -/
def validIntPart : List Char → Option (List Char)
  | [] => none
  | c :: rest =>
    if c == Char.ofNat 48 then some rest
    else if isDigitChar c then some (dropDigits rest)
    else none

/-- Validate an optional fractional part. -/
def validFracPart : List Char → Option (List Char)
  | [] => some []
  | c :: rest =>
    if c == dotChar then
      match rest with
      | [] => none
      | d :: rest2 => if isDigitChar d then some (dropDigits rest2) else none
    else some (c :: rest)

/-- Validate an optional exponent part. -/
def validExpPart : List Char → Option (List Char)
  | [] => some []
  | c :: rest =>
    if c == Char.ofNat 101 || c == Char.ofNat 69 then
      match rest with
      | [] => none
      | s :: rest2 =>
        if s == plusChar || s == minusChar then
          match rest2 with
          | [] => none
          | d :: rest3 => if isDigitChar d then some (dropDigits rest3) else none
        else if isDigitChar s then some (dropDigits rest2)
        else none
    else some (c :: rest)

/-- Validate a complete JSON number lexeme. -/
def validNum (cs : List Char) : Bool :=
  let cs1 := match cs with
    | [] => []
    | c :: rest => if c == minusChar then rest else c :: rest
  match validIntPart cs1 with
  | none => false
  | some r1 =>
    match validFracPart r1 with
    | none => false
    | some r2 =>
      match validExpPart r2 with
      | none => false
      | some r3 => r3.isEmpty

/-- Value of a hexadecimal digit. -/
def hexVal (c : Char) : Option Nat :=
  if 48 ≤ c.toNat && c.toNat ≤ 57 then some (c.toNat - 48)
  else if 97 ≤ c.toNat && c.toNat ≤ 102 then some (c.toNat - 87)
  else if 65 ≤ c.toNat && c.toNat ≤ 70 then some (c.toNat - 55)
  else none

/-- Simple JSON string escapes. -/
def escChar (c : Char) : Option Char :=
  if c == quoteChar then some quoteChar
  else if c == backslashChar then some backslashChar
  else if c == Char.ofNat 47 then some (Char.ofNat 47)
  else if c == Char.ofNat 98 then some (Char.ofNat 8)
  else if c == Char.ofNat 102 then some (Char.ofNat 12)
  else if c == Char.ofNat 110 then some (Char.ofNat 10)
  else if c == Char.ofNat 114 then some (Char.ofNat 13)
  else if c == Char.ofNat 116 then some (Char.ofNat 9)
  else none

/-- Parse the body of a JSON string after the opening quote; returns the
decoded characters and the remainder after the closing quote. -/
def parseStrB : Nat → List Char → Option (List Char × List Char)
  | 0, _ => none
  | Nat.succ fuel, cs =>
    match cs with
    | [] => none
    | c :: rest =>
      if c == quoteChar then some ([], rest)
      else if c == backslashChar then
        match rest with
        | [] => none
        | e :: rest2 =>
          if e == Char.ofNat 117 then
            match rest2 with
            | h1 :: h2 :: h3 :: h4 :: rest3 =>
              match hexVal h1, hexVal h2, hexVal h3, hexVal h4 with
              | some a, some b, some c4, some d =>
                match parseStrB fuel rest3 with
                | some (s, r) => some (Char.ofNat (((a * 16 + b) * 16 + c4) * 16 + d) :: s, r)
                | none => none
              | _, _, _, _ => none
            | _ => none
          else
            match escChar e with
            | some ec =>
              match parseStrB fuel rest2 with
              | some (s, r) => some (ec :: s, r)
              | none => none
            | none => none
      else if c.toNat < 32 then none
      else
        match parseStrB fuel rest with
        | some (s, r) => some (c :: s, r)
        | none => none

/-- Set a key in an association list the way a Go map assignment does: replace
the existing entry, or append a new one. -/
def alSet (l : List (String × JsonVal)) (k : String) (v : JsonVal) : List (String × JsonVal) :=
  if l.any (fun p => p.1 == k) then l.map (fun p => if p.1 == k then (k, v) else p)
  else l ++ [(k, v)]

/-- Parser modes: a value, the element loop of an array, or the member loop of
an object (with the members decoded so far). -/
inductive PMode where
  | val : PMode
  | arrLoop : List JsonVal → PMode
  | objLoop : List (String × JsonVal) → PMode

/-- Fuel-based JSON parser; one function covering values and the two loops so
that recursion is structural on the fuel and kernel-reducible. -/
def parseJ : Nat → PMode → List Char → Option (JsonVal × List Char)
  | 0, _, _ => none
  | Nat.succ fuel, PMode.val, cs =>
    match skipWs cs with
    | [] => none
    | c :: rest =>
      if c == quoteChar then
        match parseStrB (Nat.succ fuel) rest with
        | some (s, r) => some (JsonVal.str (String.mk s), r)
        | none => none
      else if c == lbraceChar then
        match skipWs rest with
        | c2 :: r2 => if c2 == rbraceChar then some (JsonVal.obj [], r2)
                      else parseJ fuel (PMode.objLoop []) rest
        | [] => none
      else if c == lbrackChar then
        match skipWs rest with
        | c2 :: r2 => if c2 == rbrackChar then some (JsonVal.arr [], r2)
                      else parseJ fuel (PMode.arrLoop []) rest
        | [] => none
      else if c == Char.ofNat 116 then
        match rest with
        | r1 :: r2 :: r3 :: r =>
          if r1 == Char.ofNat 114 && r2 == Char.ofNat 117 && r3 == Char.ofNat 101 then
            some (JsonVal.bool true, r)
          else none
        | _ => none
      else if c == Char.ofNat 102 then
        match rest with
        | r1 :: r2 :: r3 :: r4 :: r =>
          if r1 == Char.ofNat 97 && r2 == Char.ofNat 108 && r3 == Char.ofNat 115 &&
              r4 == Char.ofNat 101 then
            some (JsonVal.bool false, r)
          else none
        | _ => none
      else if c == Char.ofNat 110 then
        match rest with
        | r1 :: r2 :: r3 :: r =>
          if r1 == Char.ofNat 117 && r2 == Char.ofNat 108 && r3 == Char.ofNat 108 then
            some (JsonVal.null, r)
          else none
        | _ => none
      else if isDigitChar c || c == minusChar then
        let p := chompNum (c :: rest)
        if validNum p.1 then some (JsonVal.num (String.mk p.1), p.2) else none
      else none
  | Nat.succ fuel, PMode.arrLoop acc, cs =>
    match parseJ fuel PMode.val cs with
    | none => none
    | some (v, r) =>
      match skipWs r with
      | [] => none
      | c :: r2 =>
        if c == commaChar then parseJ fuel (PMode.arrLoop (acc ++ [v])) r2
        else if c == rbrackChar then some (JsonVal.arr (acc ++ [v]), r2)
        else none
  | Nat.succ fuel, PMode.objLoop acc, cs =>
    match skipWs cs with
    | [] => none
    | c :: rest =>
      if c == quoteChar then
        match parseStrB (Nat.succ fuel) rest with
        | none => none
        | some (k, r2) =>
          match skipWs r2 with
          | [] => none
          | c2 :: r3 =>
            if c2 == colonChar then
              match parseJ fuel PMode.val r3 with
              | none => none
              | some (v, r4) =>
                let acc2 := alSet acc (String.mk k) v
                match skipWs r4 with
                | [] => none
                | c3 :: r5 =>
                  if c3 == commaChar then parseJ fuel (PMode.objLoop acc2) r5
                  else if c3 == rbraceChar then some (JsonVal.obj acc2, r5)
                  else none
            else none
      else none

/-- Parse a complete JSON document: one value with only whitespace around it. -/
def parseJsonVal (s : String) : Option JsonVal :=
  match parseJ (4 * s.data.length + 16) PMode.val s.data with
  | some (v, rest) => if (skipWs rest).isEmpty then some v else none
  | none => none

/-- Observable results of `json.Unmarshal([]byte(s), &conf)` for a variable
`conf : map[string]interface\x7b\x7d`: a decoding error, a successful decode of the
JSON literal null that leaves the map nil, or a decoded object. -/
inductive UnmarshalMapRes where
  | err : UnmarshalMapRes
  | okNil : UnmarshalMapRes
  | okMap : List (String × JsonVal) → UnmarshalMapRes

/-- Shallow embedding of `json.Unmarshal` into a `map[string]interface\x7b\x7d`:
invalid JSON and valid JSON of any non-object, non-null kind are errors; the
literal null succeeds leaving the map nil; an object yields its members. -/
def goUnmarshalMap (s : String) : UnmarshalMapRes :=
  match parseJsonVal s with
  | none => UnmarshalMapRes.err
  | some JsonVal.null => UnmarshalMapRes.okNil
  | some (JsonVal.obj fields) => UnmarshalMapRes.okMap fields
  | some _ => UnmarshalMapRes.err

/-- Escape one character for JSON string output. -/
def jsonEscChar (c : Char) : String :=
  if c == quoteChar then String.mk [backslashChar, quoteChar]
  else if c == backslashChar then String.mk [backslashChar, backslashChar]
  else if c == Char.ofNat 10 then String.mk [backslashChar, Char.ofNat 110]
  else if c == Char.ofNat 13 then String.mk [backslashChar, Char.ofNat 114]
  else if c == Char.ofNat 9 then String.mk [backslashChar, Char.ofNat 116]
  else String.singleton c

/-- Serialize a string with quotes and escapes. -/
def marshalString (s : String) : String :=
  String.singleton quoteChar ++ String.join (s.data.map jsonEscChar) ++ String.singleton quoteChar

/-- Join serialized items with commas. -/
def joinComma : List String → String
  | [] => ""
  | [s] => s
  | s :: rest => s ++ "," ++ joinComma rest

/-- Shallow embedding of `simplejson` serialization (`MarshalJSON`); members
are emitted in list order (the Go encoder sorts map keys, an ordering detail
outside every claim, which only constrain the body structurally). -/
def marshalJson : JsonVal → String
  | JsonVal.null => "null"
  | JsonVal.bool b => if b then "true" else "false"
  | JsonVal.num raw => raw
  | JsonVal.str s => marshalString s
  | JsonVal.arr xs =>
      "[" ++ joinComma (xs.attach.map (fun x => marshalJson x.1)) ++ "]"
  | JsonVal.obj fs =>
      String.singleton lbraceChar ++
        joinComma (fs.attach.map (fun p => marshalString p.1.1 ++ ":" ++ marshalJson p.1.2)) ++
        String.singleton rbraceChar
termination_by v => sizeOf v
decreasing_by
  · have := List.sizeOf_lt_of_mem x.2
    simp only [JsonVal.arr.sizeOf_spec]
    omega
  · have h1 := List.sizeOf_lt_of_mem p.2
    have h2 : sizeOf p.1.2 < sizeOf p.1 := by
      obtain ⟨⟨k, v⟩, hp⟩ := p
      simp only [Prod.mk.sizeOf_spec]
      omega
    simp only [JsonVal.obj.sizeOf_spec]
    omega

/-- Association-list lookup with propositional key equality (used for
`simplejson` field access and for stating body-structure claims). -/
def lookupField (k : String) : List (String × JsonVal) → Option JsonVal
  | [] => none
  | p :: rest => if p.1 = k then some p.2 else lookupField k rest

/-- Lookup in the secure-settings document. -/
def lookupSecure (k : String) : List (String × String) → Option String
  | [] => none
  | p :: rest => if p.1 = k then some p.2 else lookupSecure k rest

/-- Shallow embedding of `simplejson` `Get`: field access on an object,
yielding a null-holding value when the key is missing or the receiver is not
an object. -/
def JsonVal.Get (j : JsonVal) (key : String) : JsonVal :=
  match j with
  | JsonVal.obj fs => (lookupField key fs).getD JsonVal.null
  | _ => JsonVal.null

/-- Shallow embedding of `simplejson` `MustString`: the string value, or the
empty string for any non-string value. -/
def JsonVal.MustString : JsonVal → String
  | JsonVal.str s => s
  | _ => ""

/-- Members of an object value (empty for non-objects); used to state claims
about the outbound body. -/
def JsonVal.objFields : JsonVal → List (String × JsonVal)
  | JsonVal.obj fs => fs
  | _ => []

/-- Go `strings.ReplaceAll` specialised to a single-character pattern and
replacement, where it is exactly a character-by-character map (the source call
site replaces the single-quote character by the double-quote character). -/
def stringsReplaceAllChar (s : String) (old new : Char) : String :=
  String.mk (s.data.map (fun c => if c = old then new else c))

/-- The persisted receiver configuration (`NotificationChannelConfig`): the
fields this channel reads. `SecureSettings` maps keys to encrypted values. -/
structure NotificationChannelConfig where
  UID : String
  Name : String
  Type' : String
  Settings : JsonVal
  SecureSettings : List (String × String)
  DisableResolveMessage : Bool

/-- Type of the decrypt function threaded through the factory
(`GetDecryptedValueFn`); arguments: secure settings, key, fallback. -/
abbrev GetDecryptedValueFn := List (String × String) → String → String → String

/-- Modelled from the spec: the `GetDecryptedValueFn` implementation supplied
by the secrets subsystem is not part of this source slice.  Per spec section
4.1, it returns the decrypted secure value when the secure-settings document
contains the key, and the given fallback otherwise; `decryptSecret` stands for
the decryption itself. -/
def getDecryptedValue (decryptSecret : String → String) : GetDecryptedValueFn :=
  fun secureSettings key fallback =>
    match lookupSecure key secureSettings with
    | some cipher => decryptSecret cipher
    | none => fallback

/-- The subset of `models.AlertNotification` populated by the notifier
constructor. -/
structure AlertNotification where
  Uid : String
  Name : String
  Type' : String
  DisableResolveMessage : Bool
  Settings : JsonVal

/-- The shared `Base` identity embedded in every notifier. -/
structure Base where
  Uid : String
  Name : String
  Type' : String
  DisableResolveMessage : Bool
  Settings : JsonVal

/-- Shallow embedding of `NewBase`. -/
def NewBase (model : AlertNotification) : Base :=
  { Uid := model.Uid, Name := model.Name, Type' := model.Type',
    DisableResolveMessage := model.DisableResolveMessage, Settings := model.Settings }

/-- Shallow embedding of `Base.GetDisableResolveMessage`. -/
def Base.GetDisableResolveMessage (b : Base) : Bool :=
  b.DisableResolveMessage

/-- An alert of the batch handed to `Notify`; consumed only by the template
engine in this channel. -/
structure Alert where
  Labels : List (String × String)
  Annotations : List (String × String)

/-- Modelled from the spec: the template state (`*template.Template`) lives
outside this source slice.  It carries the configured external base URL and,
per spec section 4.4, determines for each alert batch a best-effort rendering
function together with the first template error, delivered via a side
channel. -/
structure TemplateRef where
  ExternalURL : String
  render : List Alert → (String → String) × Option String

/-- Modelled from the spec: `TmplText` yields the rendering function over the
alert batch and the first template error via the side channel (spec section
4.4); with the template state abstracted as `TemplateRef`, it reads off that
behavior. -/
def TmplText (t : TemplateRef) (as : List Alert) : (String → String) × Option String :=
  t.render as

/-- Modelled from the spec: `joinUrlPath` joins the external base URL with a
relative path regardless of trailing-slash presence on the base (spec section
4.4); the real helper lives outside this source slice. -/
def joinUrlPath (base path : String) : String :=
  (if base.data.getLast? = some (Char.ofNat 47) then String.mk base.data.dropLast else base)
    ++ path

/-- Modelled from the spec: the built-in default title template reference
(`DefaultMessageTitleEmbed`); its literal content lives outside this source
slice and is opaque to the Airflow notifier, which only passes it to the
rendering function. -/
def DefaultMessageTitleEmbed : String :=
  "\x7b\x7b template \"default.title\" . \x7d\x7d"

/-- Modelled from the spec: the built-in default message template reference
(`DefaultMessageEmbed`), opaque to the Airflow notifier. -/
def DefaultMessageEmbed : String :=
  "\x7b\x7b template \"default.message\" . \x7d\x7d"

/-- The synchronous webhook command (`models.SendWebhookSync`). -/
structure SendWebhookSync where
  Url : String
  User : String
  Password : String
  HttpMethod : String
  HttpHeader : List (String × String)
  Body : String
deriving Inhabited

/-- Severity of a log line emitted by the notifier. -/
inductive LogLevel where
  | debug : LogLevel
  | error : LogLevel
deriving DecidableEq

/-- One log line: severity, message, key-value context. -/
structure LogEntry where
  level : LogLevel
  msg : String
  kv : List (String × String)
deriving DecidableEq

/-- Transient constructor input (`FactoryConfig`): raw channel config, decrypt
function, webhook sender, template state.  The sender is its observable
behavior: the error, if any, for each command. -/
structure FactoryConfig where
  Config : NotificationChannelConfig
  DecryptFunc : GetDecryptedValueFn
  NotificationService : SendWebhookSync → Option String
  Template : TemplateRef

/-- Construction failure wrapper (`receiverInitError`). -/
structure receiverInitError where
  Reason : String
  Cfg : NotificationChannelConfig

/-- The typed Airflow configuration; embeds the raw channel config like the Go
struct embeds `*NotificationChannelConfig`. -/
structure AirflowConfig extends NotificationChannelConfig where
  URL : String
  DagID : String
  User : String
  Password : String
  RunId : String
  LogicalDate : String
  State : String
  Conf : String

/-- Shallow embedding of `NewAirflowConfig`: dagId is required first, then
url; the password resolves through the decrypt function with the plaintext
settings value as fallback; the conf string has every single-quote character
replaced by a double quote. -/
def NewAirflowConfig (config : NotificationChannelConfig)
    (decryptFunc : GetDecryptedValueFn) : Except String AirflowConfig :=
  let dagId := (config.Settings.Get "dagId").MustString
  if dagId = "" then Except.error "Could not find DAG ID property in settings"
  else
    let url := (config.Settings.Get "url").MustString
    if url = "" then Except.error "Could not find url property in settings"
    else
      let password := decryptFunc config.SecureSettings "password"
        ((config.Settings.Get "password").MustString)
      let userName := (config.Settings.Get "username").MustString
      let runId := (config.Settings.Get "runId").MustString
      let logicalDate := (config.Settings.Get "logicalDate").MustString
      let state := (config.Settings.Get "state").MustString
      let conf := stringsReplaceAllChar ((config.Settings.Get "conf").MustString)
        squoteChar quoteChar
      Except.ok
        { toNotificationChannelConfig := config, URL := url, DagID := dagId,
          User := userName, Password := password, RunId := runId,
          LogicalDate := logicalDate, State := state, Conf := conf }

/-- The Airflow notifier: embedded `Base` identity, the typed configuration
fields, the webhook sender and the template state.  The Go logger field is
represented by the log entries in each `Notify` outcome. -/
structure AirflowNotifier extends Base where
  URL : String
  DagID : String
  User : String
  Password : String
  RunId : String
  LogicalDate : String
  State : String
  Conf : String
  ns : SendWebhookSync → Option String
  tmpl : TemplateRef

/-- Shallow embedding of `NewAirflowNotifier`. -/
def NewAirflowNotifier (config : AirflowConfig) (ns : SendWebhookSync → Option String)
    (t : TemplateRef) : AirflowNotifier :=
  { toBase := NewBase
      { Uid := config.UID, Name := config.Name, Type' := config.Type',
        DisableResolveMessage := config.DisableResolveMessage,
        Settings := config.Settings },
    URL := config.URL, DagID := config.DagID, User := config.User,
    Password := config.Password, RunId := config.RunId,
    LogicalDate := config.LogicalDate, State := config.State, Conf := config.Conf,
    ns := ns, tmpl := t }

/-- Shallow embedding of `AirflowFactory`: on a configuration error no
notifier is returned and the error is wrapped in `receiverInitError`. -/
def AirflowFactory (fc : FactoryConfig) : Except receiverInitError AirflowNotifier :=
  match NewAirflowConfig fc.Config fc.DecryptFunc with
  | Except.error e => Except.error { Reason := e, Cfg := fc.Config }
  | Except.ok cfg => Except.ok (NewAirflowNotifier cfg fc.NotificationService fc.Template)

/-- The conf map that `Notify` proceeds with, by unmarshal result: an
unmarshal error is replaced by a fresh empty map; a successful decode of JSON
null leaves the map nil, and the later `trigger` assignment panics (`none`). -/
def confMapOf : UnmarshalMapRes → Option (List (String × JsonVal))
  | UnmarshalMapRes.err => some []
  | UnmarshalMapRes.okNil => none
  | UnmarshalMapRes.okMap m => some m

/-- The debug log line emitted at the top of `Notify`. -/
def debugLogEntry (an : AirflowNotifier) : LogEntry :=
  { level := LogLevel.debug, msg := "executing airflow notification",
    kv := [("notification", an.Name)] }

/-- The error log line emitted when the webhook sender fails. -/
def sendErrorLogEntry (e body : String) : LogEntry :=
  { level := LogLevel.error, msg := "failed to send notification to Airflow",
    kv := [("err", e), ("body", body)] }

/-- The endpoint `fmt.Sprintf(airflowUrl, url, dagId)` with the constant
format string `airflowUrl = "%s/api/v1/dags/%s/dagRuns"`. -/
def airflowEndpoint (url dagId : String) : String :=
  url ++ "/api/v1/dags/" ++ dagId ++ "/dagRuns"

/-- Observable outcome of one non-panicking `Notify` call: the returned pair
`(delivered, err)`, the command handed to the webhook sender, the structured
body it serialized, and the log lines. -/
structure NotifyOutcome where
  delivered : Bool
  err : Option String
  cmd : SendWebhookSync
  bodyJSON : JsonVal
  logs : List LogEntry
deriving Inhabited

/-- Shallow embedding of `AirflowNotifier.Notify`.  A `none` result is the Go
panic on `conf["trigger"]` when `json.Unmarshal` decoded the literal null and
left the map nil; otherwise the notifier post-state (never mutated by the
source) is returned with the outcome. -/
def AirflowNotifier.Notify (an : AirflowNotifier) (as : List Alert) :
    Option (AirflowNotifier × NotifyOutcome) :=
  match confMapOf (goUnmarshalMap an.Conf) with
  | none => none
  | some conf0 =>
    let tr := TmplText an.tmpl as
    let tmplF := tr.1
    let content : List (String × String) :=
      [("client", "Grafana"),
       ("client_url", joinUrlPath an.tmpl.ExternalURL "/alerting/list"),
       ("description", tmplF DefaultMessageTitleEmbed),
       ("details", tmplF DefaultMessageEmbed)]
    let conf := alSet conf0 "trigger" (JsonVal.obj (content.map (fun p => (p.1, JsonVal.str p.2))))
    let bodyFields : List (String × JsonVal) :=
      (if an.RunId ≠ "" then [("dag_run_id", JsonVal.str an.RunId)] else []) ++
      (if an.LogicalDate ≠ "" then [("logical_date", JsonVal.str an.LogicalDate)] else []) ++
      (if an.State ≠ "" then [("state", JsonVal.str an.State)] else []) ++
      [("conf", JsonVal.obj conf)]
    let bodyJSON := JsonVal.obj bodyFields
    let body := marshalJson bodyJSON
    let endPoint := airflowEndpoint an.URL an.DagID
    let cmd : SendWebhookSync :=
      { Url := endPoint, User := an.User, Password := an.Password, HttpMethod := "POST",
        HttpHeader := [("Content-Type", "application/json"), ("Accept", "application/json")],
        Body := body }
    let errOpt := an.ns cmd
    some (an,
      { delivered := errOpt.isNone, err := errOpt, cmd := cmd, bodyJSON := bodyJSON,
        logs := match errOpt with
          | some e => [debugLogEntry an, sendErrorLogEntry e body]
          | none => [debugLogEntry an] })

/-- Shallow embedding of `AirflowNotifier.SendResolved`. -/
def AirflowNotifier.SendResolved (an : AirflowNotifier) : Bool :=
  !(an.toBase.GetDisableResolveMessage)

/-- The `trigger` object built by `Notify` (characterization of the source
computation, used to state the claims). -/
def notifyTriggerVal (an : AirflowNotifier) (as : List Alert) : JsonVal :=
  JsonVal.obj
    [("client", JsonVal.str "Grafana"),
     ("client_url", JsonVal.str (joinUrlPath an.tmpl.ExternalURL "/alerting/list")),
     ("description", JsonVal.str ((TmplText an.tmpl as).1 DefaultMessageTitleEmbed)),
     ("details", JsonVal.str ((TmplText an.tmpl as).1 DefaultMessageEmbed))]

/-- The members of the outbound body built by `Notify` from the decoded conf
map `m`. -/
def notifyBodyFieldsVal (an : AirflowNotifier) (as : List Alert)
    (m : List (String × JsonVal)) : List (String × JsonVal) :=
  (if an.RunId ≠ "" then [("dag_run_id", JsonVal.str an.RunId)] else []) ++
  (if an.LogicalDate ≠ "" then [("logical_date", JsonVal.str an.LogicalDate)] else []) ++
  (if an.State ≠ "" then [("state", JsonVal.str an.State)] else []) ++
  [("conf", JsonVal.obj (alSet m "trigger" (notifyTriggerVal an as)))]

/-- The webhook command built by `Notify` from the decoded conf map `m`. -/
def notifyCmdVal (an : AirflowNotifier) (as : List Alert)
    (m : List (String × JsonVal)) : SendWebhookSync :=
  { Url := airflowEndpoint an.URL an.DagID, User := an.User, Password := an.Password,
    HttpMethod := "POST",
    HttpHeader := [("Content-Type", "application/json"), ("Accept", "application/json")],
    Body := marshalJson (JsonVal.obj (notifyBodyFieldsVal an as m)) }

/-- The full outcome of a non-panicking `Notify` call with decoded conf map
`m`. -/
def notifyOutcomeVal (an : AirflowNotifier) (as : List Alert)
    (m : List (String × JsonVal)) : NotifyOutcome :=
  { delivered := (an.ns (notifyCmdVal an as m)).isNone,
    err := an.ns (notifyCmdVal an as m),
    cmd := notifyCmdVal an as m,
    bodyJSON := JsonVal.obj (notifyBodyFieldsVal an as m),
    logs := match an.ns (notifyCmdVal an as m) with
      | some e => [debugLogEntry an, sendErrorLogEntry e (notifyCmdVal an as m).Body]
      | none => [debugLogEntry an] }

/-- Concrete rendering behavior: identity output, no template error. -/
def idRender : List Alert → (String → String) × Option String :=
  fun _ => (fun s => s, none)

/-- Concrete rendering behavior: identity output with a captured template
error on the side channel. -/
def errRender : List Alert → (String → String) × Option String :=
  fun _ => (fun s => s, some "template execute error")

/-- Concrete template state with external URL `http://localhost`. -/
def tmplLocal : TemplateRef :=
  { ExternalURL := "http://localhost", render := idRender }

/-- Concrete template state whose rendering reports an error. -/
def tmplLocalErr : TemplateRef :=
  { ExternalURL := "http://localhost", render := errRender }

/-- A webhook sender that always succeeds. -/
def nsNone : SendWebhookSync → Option String := fun _ => none

/-- A webhook sender that always fails with a transport error. -/
def nsRefused : SendWebhookSync → Option String := fun _ => some "connection refused"

/-- A decrypt function whose decryption is the identity on the stored value. -/
def decId : GetDecryptedValueFn := getDecryptedValue (fun s => s)

/-- The single alert of spec Scenario A. -/
def alert1 : Alert :=
  { Labels := [("alertname", "alert1"), ("lbl1", "val1")], Annotations := [] }

/-- Scenario A settings document. -/
def settingsLocal : JsonVal :=
  JsonVal.obj [("url", JsonVal.str "http://localhost"), ("dagId", JsonVal.str "somedag")]

/-- Scenario A channel configuration. -/
def chanLocal : NotificationChannelConfig :=
  { UID := "", Name := "airflow_testing", Type' := "airflow", Settings := settingsLocal,
    SecureSettings := [], DisableResolveMessage := false }

/-- The typed configuration produced from `chanLocal`. -/
def cfgLocal : AirflowConfig :=
  { toNotificationChannelConfig := chanLocal, URL := "http://localhost", DagID := "somedag",
    User := "", Password := "", RunId := "", LogicalDate := "", State := "", Conf := "" }

/-- The Scenario A notifier with an always-successful sender. -/
def anLocal : AirflowNotifier := NewAirflowNotifier cfgLocal nsNone tmplLocal

/-- The Scenario A notifier with a failing sender. -/
def anLocalFail : AirflowNotifier := NewAirflowNotifier cfgLocal nsRefused tmplLocal

/-- Channel configuration with the dagId setting missing. -/
def chanMissingDag : NotificationChannelConfig :=
  { UID := "", Name := "airflow_testing", Type' := "airflow",
    Settings := JsonVal.obj [("url", JsonVal.str "http://localhost")],
    SecureSettings := [], DisableResolveMessage := false }

/-- Channel configuration with the url setting missing (dagId present). -/
def chanMissingUrl : NotificationChannelConfig :=
  { UID := "", Name := "airflow_testing", Type' := "airflow",
    Settings := JsonVal.obj [("dagId", JsonVal.str "somedag")],
    SecureSettings := [], DisableResolveMessage := false }

/-- Channel configuration whose conf setting is the string `null`. -/
def chanConfNull : NotificationChannelConfig :=
  { UID := "", Name := "airflow_testing", Type' := "airflow",
    Settings := JsonVal.obj [("url", JsonVal.str "http://localhost"),
      ("dagId", JsonVal.str "somedag"), ("conf", JsonVal.str "null")],
    SecureSettings := [], DisableResolveMessage := false }

/-- The typed configuration produced from `chanConfNull`. -/
def cfgConfNull : AirflowConfig :=
  { toNotificationChannelConfig := chanConfNull, URL := "http://localhost", DagID := "somedag",
    User := "", Password := "", RunId := "", LogicalDate := "", State := "", Conf := "null" }

/-- Notifier built from the conf-null configuration. -/
def anConfNull : AirflowNotifier := NewAirflowNotifier cfgConfNull nsNone tmplLocal

/-- A single-quote character as a string. -/
def sqStr : String := String.singleton squoteChar

/-- A conf document written with single quotes instead of double quotes. -/
def confSingleQuoted : String :=
  "\x7b" ++ sqStr ++ "a" ++ sqStr ++ ":" ++ sqStr ++ "b" ++ sqStr ++ "\x7d"

/-- Channel configuration whose conf setting uses single quotes. -/
def chanConfQuoted : NotificationChannelConfig :=
  { UID := "", Name := "airflow_testing", Type' := "airflow",
    Settings := JsonVal.obj [("url", JsonVal.str "http://localhost"),
      ("dagId", JsonVal.str "somedag"), ("conf", JsonVal.str confSingleQuoted)],
    SecureSettings := [], DisableResolveMessage := false }

/-- The typed configuration produced from `chanConfQuoted`: the stored conf
string has double quotes throughout. -/
def cfgConfQuoted : AirflowConfig :=
  { toNotificationChannelConfig := chanConfQuoted, URL := "http://localhost",
    DagID := "somedag", User := "", Password := "", RunId := "", LogicalDate := "",
    State := "", Conf := "\x7b\"a\":\"b\"\x7d" }

/-- The Scenario A notifier whose template rendering reports an error. -/
def anLocalErr : AirflowNotifier := NewAirflowNotifier cfgLocal nsNone tmplLocalErr

/-- The same notifier with the render side channel swapped to the error-free
rendering (same best-effort output). -/
def anLocalErrSwapped : AirflowNotifier :=
  { anLocalErr with tmpl := { ExternalURL := anLocalErr.tmpl.ExternalURL, render := idRender } }

/-- Key extraction used to state the C3 counterexample: the keys of the
`trigger` object inside the `conf` member of the outbound body. -/
def triggerKeysOf (r : Option (AirflowNotifier × NotifyOutcome)) : Option (List String) :=
  match r with
  | none => none
  | some p =>
    match lookupField "conf" p.2.bodyJSON.objFields with
    | some cv =>
      match lookupField "trigger" cv.objFields with
      | some tv => some (tv.objFields.map Prod.fst)
      | none => none
    | none => none

/-- Characterization: on any conf map that does not panic, `Notify` returns
the unchanged notifier and the outcome assembled by `notifyOutcomeVal`. -/
theorem AirflowNotifier.notify_eq (an : AirflowNotifier) (as : List Alert)
    (m : List (String × JsonVal)) (hm : confMapOf (goUnmarshalMap an.Conf) = some m) :
    an.Notify as = some (an, notifyOutcomeVal an as m) := by
  unfold AirflowNotifier.Notify
  rw [hm]
  exact rfl

/-- Characterization: when the unmarshal result is a nil map, `Notify`
panics. -/
theorem AirflowNotifier.notify_panic (an : AirflowNotifier) (as : List Alert)
    (hm : confMapOf (goUnmarshalMap an.Conf) = none) :
    an.Notify as = none := by
  unfold AirflowNotifier.Notify
  rw [hm]

/-- Inversion: every non-panicking `Notify` call arises from a decoded conf
map, returns the unchanged notifier, and its outcome is `notifyOutcomeVal`. -/
theorem AirflowNotifier.notify_some_inv (an : AirflowNotifier) (as : List Alert)
    (an' : AirflowNotifier) (o : NotifyOutcome) (h : an.Notify as = some (an', o)) :
    ∃ m, confMapOf (goUnmarshalMap an.Conf) = some m
      ∧ an' = an ∧ o = notifyOutcomeVal an as m := by
  cases hm : confMapOf (goUnmarshalMap an.Conf) with
  | none =>
    rw [an.notify_panic as hm] at h
    exact absurd h (by simp)
  | some m =>
    rw [an.notify_eq as m hm] at h
    obtain ⟨h1, h2⟩ := Prod.mk.injEq .. |>.mp (Option.some.injEq .. |>.mp h)
    exact ⟨m, rfl, h1.symm, h2.symm⟩

/-- Field lookups in the outbound body built by `Notify`: the three optional
members are present exactly when the configured value is non-empty, and the
conf member is the merged custom config with the trigger entry. -/
theorem lookupField_notifyBodyFields (an : AirflowNotifier) (as : List Alert)
    (m : List (String × JsonVal)) :
    lookupField "conf" (notifyBodyFieldsVal an as m)
        = some (JsonVal.obj (alSet m "trigger" (notifyTriggerVal an as)))
    ∧ lookupField "dag_run_id" (notifyBodyFieldsVal an as m)
        = (if an.RunId = "" then none else some (JsonVal.str an.RunId))
    ∧ lookupField "logical_date" (notifyBodyFieldsVal an as m)
        = (if an.LogicalDate = "" then none else some (JsonVal.str an.LogicalDate))
    ∧ lookupField "state" (notifyBodyFieldsVal an as m)
        = (if an.State = "" then none else some (JsonVal.str an.State)) := by
  by_cases h1 : an.RunId = "" <;> by_cases h2 : an.LogicalDate = "" <;>
    by_cases h3 : an.State = "" <;>
    simp [notifyBodyFieldsVal, lookupField, h1, h2, h3]

/-- Inversion of a successful `NewAirflowConfig`: the produced configuration
is fully determined by the settings and the decrypt function, and both
required fields were non-empty. -/
theorem NewAirflowConfig_ok_inv (cfg : NotificationChannelConfig) (d : GetDecryptedValueFn)
    (c : AirflowConfig) (h : NewAirflowConfig cfg d = Except.ok c) :
    c = { toNotificationChannelConfig := cfg,
          URL := (cfg.Settings.Get "url").MustString,
          DagID := (cfg.Settings.Get "dagId").MustString,
          User := (cfg.Settings.Get "username").MustString,
          Password := d cfg.SecureSettings "password" ((cfg.Settings.Get "password").MustString),
          RunId := (cfg.Settings.Get "runId").MustString,
          LogicalDate := (cfg.Settings.Get "logicalDate").MustString,
          State := (cfg.Settings.Get "state").MustString,
          Conf := stringsReplaceAllChar ((cfg.Settings.Get "conf").MustString)
            squoteChar quoteChar }
    ∧ (cfg.Settings.Get "dagId").MustString ≠ ""
    ∧ (cfg.Settings.Get "url").MustString ≠ "" := by
  unfold NewAirflowConfig at h
  dsimp only [] at h
  split_ifs at h with hd hu
  exact ⟨(Except.ok.injEq .. |>.mp h).symm, hd, hu⟩

/-- Claim C1 (counterexample): for settings missing dagId, the error message
is `Could not find DAG ID property in settings`, which is not the claimed
literal phrasing `could not find <field> property in settings` (the source
capitalizes `Could`). -/
theorem c1_counterexample :
    NewAirflowConfig chanMissingDag decId
        = Except.error "Could not find DAG ID property in settings"
    ∧ "Could not find DAG ID property in settings"
        ≠ "could not find DAG ID property in settings" :=
  ⟨rfl, by decide⟩

/-- Claim C1 (amended): for every settings document missing a required field,
`NewAirflowConfig` returns an error with the fixed literal message
`Could not find DAG ID property in settings` respectively
`Could not find url property in settings` (capitalized `Could`, the dagId
field named `DAG ID`), and `AirflowFactory` returns no notifier but the
wrapped error; dagId is checked first, so a missing dagId is reported even if
url is also missing. -/
theorem c1_missing_field_error_messages (cfg : NotificationChannelConfig)
    (d : GetDecryptedValueFn) (ns : SendWebhookSync → Option String) (t : TemplateRef) :
    ((cfg.Settings.Get "dagId").MustString = "" →
      NewAirflowConfig cfg d = Except.error "Could not find DAG ID property in settings"
      ∧ AirflowFactory { Config := cfg, DecryptFunc := d, NotificationService := ns, Template := t }
          = Except.error { Reason := "Could not find DAG ID property in settings", Cfg := cfg })
    ∧ ((cfg.Settings.Get "dagId").MustString ≠ "" →
        (cfg.Settings.Get "url").MustString = "" →
      NewAirflowConfig cfg d = Except.error "Could not find url property in settings"
      ∧ AirflowFactory { Config := cfg, DecryptFunc := d, NotificationService := ns, Template := t }
          = Except.error { Reason := "Could not find url property in settings", Cfg := cfg }) := by
  constructor
  · intro h
    have h1 : NewAirflowConfig cfg d
        = Except.error "Could not find DAG ID property in settings" := by
      simp [NewAirflowConfig, h]
    exact ⟨h1, by simp [AirflowFactory, h1]⟩
  · intro h h'
    have h1 : NewAirflowConfig cfg d
        = Except.error "Could not find url property in settings" := by
      simp [NewAirflowConfig, h, h']
    exact ⟨h1, by simp [AirflowFactory, h1]⟩

/-- Witness for C1: a concrete settings document missing dagId (while url is
present) yields the DAG ID error through both the config builder and the
factory, and a concrete document with dagId but no url yields the url
error. -/
theorem c1_witness :
    ((chanMissingDag.Settings.Get "dagId").MustString = ""
      ∧ NewAirflowConfig chanMissingDag decId
          = Except.error "Could not find DAG ID property in settings"
      ∧ AirflowFactory { Config := chanMissingDag, DecryptFunc := decId, NotificationService := nsNone, Template := tmplLocal }
          = Except.error { Reason := "Could not find DAG ID property in settings", Cfg := chanMissingDag })
    ∧ ((chanMissingUrl.Settings.Get "dagId").MustString ≠ ""
      ∧ (chanMissingUrl.Settings.Get "url").MustString = ""
      ∧ NewAirflowConfig chanMissingUrl decId
          = Except.error "Could not find url property in settings") := by
  constructor
  · have h := (c1_missing_field_error_messages chanMissingDag decId nsNone tmplLocal).1 rfl
    exact ⟨rfl, h.1, h.2⟩
  · have h := (c1_missing_field_error_messages chanMissingUrl decId nsNone tmplLocal).2
      (by decide) rfl
    exact ⟨by decide, rfl, h.1⟩

/-- Claim C2: for settings url `http://localhost`, dagId `somedag` and the
single Scenario A alert, with any rendering behavior and a webhook sender
that succeeds, `Notify` issues a POST to
`http://localhost/api/v1/dags/somedag/dagRuns` whose body serializes a JSON
object with a `conf` member holding a `trigger` object, and returns
`(true, nil)`. -/
theorem c2_scenario_a (rf : String → String) (re : Option String)
    (ns : SendWebhookSync → Option String) (hns : ∀ c, ns c = none) :
    NewAirflowConfig chanLocal decId = Except.ok cfgLocal
    ∧ ∃ o : NotifyOutcome,
      (NewAirflowNotifier cfgLocal ns
          { ExternalURL := "http://localhost", render := fun _ => (rf, re) }).Notify [alert1]
        = some (NewAirflowNotifier cfgLocal ns
            { ExternalURL := "http://localhost", render := fun _ => (rf, re) }, o)
      ∧ o.cmd.HttpMethod = "POST"
      ∧ o.cmd.Url = "http://localhost/api/v1/dags/somedag/dagRuns"
      ∧ o.cmd.Body = marshalJson o.bodyJSON
      ∧ (∃ trig : List (String × JsonVal),
          lookupField "conf" o.bodyJSON.objFields
            = some (JsonVal.obj [("trigger", JsonVal.obj trig)]))
      ∧ o.delivered = true ∧ o.err = none := by
  refine ⟨rfl, notifyOutcomeVal _ [alert1] [], AirflowNotifier.notify_eq _ _ [] rfl,
    rfl, rfl, rfl, ⟨_, rfl⟩, ?_, hns _⟩
  show (ns _).isNone = true
  rw [hns]
  rfl

/-- Witness for C2: the theorem instantiated at identity rendering with no
template error and the always-successful sender. -/
theorem c2_witness :
    (∀ c, nsNone c = none)
    ∧ (NewAirflowConfig chanLocal decId = Except.ok cfgLocal
      ∧ ∃ o : NotifyOutcome,
        (NewAirflowNotifier cfgLocal nsNone
            { ExternalURL := "http://localhost",
              render := fun _ => (fun s => s, (none : Option String)) }).Notify [alert1]
          = some (NewAirflowNotifier cfgLocal nsNone
              { ExternalURL := "http://localhost",
                render := fun _ => (fun s => s, (none : Option String)) }, o)
        ∧ o.cmd.HttpMethod = "POST"
        ∧ o.cmd.Url = "http://localhost/api/v1/dags/somedag/dagRuns"
        ∧ o.cmd.Body = marshalJson o.bodyJSON
        ∧ (∃ trig : List (String × JsonVal),
            lookupField "conf" o.bodyJSON.objFields
              = some (JsonVal.obj [("trigger", JsonVal.obj trig)]))
        ∧ o.delivered = true ∧ o.err = none) :=
  ⟨fun _ => rfl, c2_scenario_a (fun s => s) none nsNone (fun _ => rfl)⟩

/-- Claim C3 (counterexample): on a concrete call the keys of the trigger
object are `client`, `client_url`, `description` and `details`; the claimed
key `title` does not occur. -/
theorem c3_counterexample :
    triggerKeysOf (anLocal.Notify [alert1])
        = some ["client", "client_url", "description", "details"]
    ∧ ¬ ("title" ∈ (["client", "client_url", "description", "details"] : List String)) :=
  ⟨rfl, by decide⟩

/-- Claim C3 (amended): every non-panicking `Notify` call posts to
`{url}/api/v1/dags/{dagId}/dagRuns` with JSON content-type and accept headers;
the body has `dag_run_id`, `logical_date` and `state` members exactly when the
configured value is non-empty, and its `conf` member is the merged custom
config extended with a `trigger` object whose keys are `client`, `client_url`,
`description` and `details` (the source emits `details`, not the claimed
`title`). -/
theorem c3_wire_contract (an : AirflowNotifier) (as : List Alert)
    (m : List (String × JsonVal)) (hm : confMapOf (goUnmarshalMap an.Conf) = some m) :
    an.Notify as = some (an, notifyOutcomeVal an as m)
    ∧ (notifyOutcomeVal an as m).cmd.HttpMethod = "POST"
    ∧ (notifyOutcomeVal an as m).cmd.Url = airflowEndpoint an.URL an.DagID
    ∧ (notifyOutcomeVal an as m).cmd.HttpHeader
        = [("Content-Type", "application/json"), ("Accept", "application/json")]
    ∧ (notifyOutcomeVal an as m).cmd.Body = marshalJson (notifyOutcomeVal an as m).bodyJSON
    ∧ lookupField "dag_run_id" (notifyOutcomeVal an as m).bodyJSON.objFields
        = (if an.RunId = "" then none else some (JsonVal.str an.RunId))
    ∧ lookupField "logical_date" (notifyOutcomeVal an as m).bodyJSON.objFields
        = (if an.LogicalDate = "" then none else some (JsonVal.str an.LogicalDate))
    ∧ lookupField "state" (notifyOutcomeVal an as m).bodyJSON.objFields
        = (if an.State = "" then none else some (JsonVal.str an.State))
    ∧ lookupField "conf" (notifyOutcomeVal an as m).bodyJSON.objFields
        = some (JsonVal.obj (alSet m "trigger" (notifyTriggerVal an as)))
    ∧ (notifyTriggerVal an as).objFields.map Prod.fst
        = ["client", "client_url", "description", "details"] := by
  have hl := lookupField_notifyBodyFields an as m
  exact ⟨an.notify_eq as m hm, rfl, rfl, rfl, rfl, hl.2.1, hl.2.2.1, hl.2.2.2, hl.1, rfl⟩

/-- Witness for C3: the amended wire contract at the Scenario A notifier with
an empty conf map. -/
theorem c3_witness :
    confMapOf (goUnmarshalMap anLocal.Conf) = some []
    ∧ (anLocal.Notify [alert1] = some (anLocal, notifyOutcomeVal anLocal [alert1] [])
      ∧ (notifyOutcomeVal anLocal [alert1] []).cmd.HttpMethod = "POST"
      ∧ (notifyOutcomeVal anLocal [alert1] []).cmd.Url = airflowEndpoint anLocal.URL anLocal.DagID
      ∧ (notifyOutcomeVal anLocal [alert1] []).cmd.HttpHeader
          = [("Content-Type", "application/json"), ("Accept", "application/json")]
      ∧ (notifyOutcomeVal anLocal [alert1] []).cmd.Body
          = marshalJson (notifyOutcomeVal anLocal [alert1] []).bodyJSON
      ∧ lookupField "dag_run_id" (notifyOutcomeVal anLocal [alert1] []).bodyJSON.objFields
          = (if anLocal.RunId = "" then none else some (JsonVal.str anLocal.RunId))
      ∧ lookupField "logical_date" (notifyOutcomeVal anLocal [alert1] []).bodyJSON.objFields
          = (if anLocal.LogicalDate = "" then none else some (JsonVal.str anLocal.LogicalDate))
      ∧ lookupField "state" (notifyOutcomeVal anLocal [alert1] []).bodyJSON.objFields
          = (if anLocal.State = "" then none else some (JsonVal.str anLocal.State))
      ∧ lookupField "conf" (notifyOutcomeVal anLocal [alert1] []).bodyJSON.objFields
          = some (JsonVal.obj (alSet [] "trigger" (notifyTriggerVal anLocal [alert1])))
      ∧ (notifyTriggerVal anLocal [alert1]).objFields.map Prod.fst
          = ["client", "client_url", "description", "details"]) :=
  ⟨rfl, c3_wire_contract anLocal [alert1] [] rfl⟩

/-- Claim C4: for every non-panicking `Notify` call, the returned error is
exactly the webhook sender result: on a sender error `e` the result is
`(false, e)` with `e` propagated verbatim and an error-severity log line
carrying the serialized outbound body; on sender success the result is
`(true, nil)`. -/
theorem c4_transport_result (an : AirflowNotifier) (as : List Alert)
    (an' : AirflowNotifier) (o : NotifyOutcome) (h : an.Notify as = some (an', o)) :
    o.err = an.ns o.cmd
    ∧ o.delivered = (an.ns o.cmd).isNone
    ∧ (∀ e, an.ns o.cmd = some e →
        o.delivered = false ∧ o.err = some e
        ∧ o.logs = [debugLogEntry an, sendErrorLogEntry e o.cmd.Body]
        ∧ (sendErrorLogEntry e o.cmd.Body).level = LogLevel.error
        ∧ ("body", o.cmd.Body) ∈ (sendErrorLogEntry e o.cmd.Body).kv
        ∧ o.cmd.Body = marshalJson o.bodyJSON)
    ∧ (an.ns o.cmd = none → o.delivered = true ∧ o.err = none) := by
  obtain ⟨m, -, -, rfl⟩ := an.notify_some_inv as an' o h
  refine ⟨rfl, rfl, ?_, ?_⟩
  · intro e he
    have he' : an.ns (notifyCmdVal an as m) = some e := he
    refine ⟨?_, he', ?_, rfl, by simp [sendErrorLogEntry], rfl⟩
    · show (an.ns (notifyCmdVal an as m)).isNone = false
      rw [he']
      rfl
    · show (match an.ns (notifyCmdVal an as m) with
        | some e => [debugLogEntry an, sendErrorLogEntry e (notifyCmdVal an as m).Body]
        | none => [debugLogEntry an]) = _
      rw [he']
      exact rfl
  · intro he
    have he' : an.ns (notifyCmdVal an as m) = none := he
    constructor
    · show (an.ns (notifyCmdVal an as m)).isNone = true
      rw [he']
      rfl
    · exact he'

/-- Witness for C4: the failing-sender Scenario A notifier returns
`(false, connection refused)` with the transport error verbatim, and the
successful-sender notifier returns `(true, nil)`. -/
theorem c4_witness :
    anLocalFail.Notify [alert1]
        = some (anLocalFail, notifyOutcomeVal anLocalFail [alert1] [])
    ∧ ((notifyOutcomeVal anLocalFail [alert1] []).err
        = anLocalFail.ns (notifyOutcomeVal anLocalFail [alert1] []).cmd
      ∧ (notifyOutcomeVal anLocalFail [alert1] []).delivered
          = (anLocalFail.ns (notifyOutcomeVal anLocalFail [alert1] []).cmd).isNone
      ∧ (notifyOutcomeVal anLocalFail [alert1] []).delivered = false
      ∧ (notifyOutcomeVal anLocalFail [alert1] []).err = some "connection refused"
      ∧ (notifyOutcomeVal anLocalFail [alert1] []).logs
          = [debugLogEntry anLocalFail,
             sendErrorLogEntry "connection refused" (notifyOutcomeVal anLocalFail [alert1] []).cmd.Body]) := by
  have h : anLocalFail.Notify [alert1]
      = some (anLocalFail, notifyOutcomeVal anLocalFail [alert1] []) :=
    AirflowNotifier.notify_eq anLocalFail [alert1] [] rfl
  have hc := c4_transport_result anLocalFail [alert1] anLocalFail
    (notifyOutcomeVal anLocalFail [alert1] []) h
  have he := hc.2.2.1 "connection refused" rfl
  exact ⟨h, hc.1, hc.2.1, he.1, he.2.1, he.2.2.1⟩

/-- Claim C5: with the spec-modelled decrypt function, the password of a
successfully built configuration is the decrypted secure value when the
secure-settings document contains the `password` key, and otherwise the
plaintext settings value verbatim (the empty string when that is absent or
not a string); the raw channel config, secure settings included, is embedded
unchanged, and every `Notify` call sends exactly the construction-time
password. -/
theorem c5_secret_resolution (dec : String → String) (cfg : NotificationChannelConfig)
    (c : AirflowConfig) (h : NewAirflowConfig cfg (getDecryptedValue dec) = Except.ok c)
    (ns : SendWebhookSync → Option String) (t : TemplateRef) :
    c.Password = (match lookupSecure "password" cfg.SecureSettings with
      | some cipher => dec cipher
      | none => (cfg.Settings.Get "password").MustString)
    ∧ c.toNotificationChannelConfig = cfg
    ∧ c.SecureSettings = cfg.SecureSettings
    ∧ (∀ as an' o, (NewAirflowNotifier c ns t).Notify as = some (an', o) →
        o.cmd.Password = c.Password ∧ an'.Password = c.Password) := by
  obtain ⟨rfl, -, -⟩ := NewAirflowConfig_ok_inv cfg (getDecryptedValue dec) c h
  refine ⟨rfl, rfl, rfl, ?_⟩
  intro as an' o ho
  obtain ⟨m, hm, rfl, rfl⟩ := AirflowNotifier.notify_some_inv _ as an' o ho
  exact ⟨rfl, rfl⟩

/-- Witness for C5: concrete secure settings containing `password` resolve to
the decrypted secure value; the plaintext fallback case is exercised by the
Scenario A configuration, whose secure settings are empty. -/
theorem c5_witness :
    NewAirflowConfig chanLocal (getDecryptedValue (fun s => s)) = Except.ok cfgLocal
    ∧ (cfgLocal.Password = (match lookupSecure "password" chanLocal.SecureSettings with
        | some cipher => cipher
        | none => (chanLocal.Settings.Get "password").MustString)
      ∧ cfgLocal.toNotificationChannelConfig = chanLocal
      ∧ cfgLocal.SecureSettings = chanLocal.SecureSettings
      ∧ (∀ as an' o, (NewAirflowNotifier cfgLocal nsNone tmplLocal).Notify as = some (an', o) →
          o.cmd.Password = cfgLocal.Password ∧ an'.Password = cfgLocal.Password)) :=
  ⟨rfl, c5_secret_resolution (fun s => s) chanLocal cfgLocal rfl nsNone tmplLocal⟩

/-- Claim C6: a captured template-render error never aborts a non-panicking
`Notify` call: the call still returns the assembled outcome, and replacing the
side-channel error by anything else (keeping the same best-effort output)
leaves the observable outcome unchanged, so `(delivered, err)` does not depend
on the captured render error. -/
theorem c6_render_error_nonfatal (an : AirflowNotifier)
    (r2 : List Alert → (String → String) × Option String) (as : List Alert)
    (e : String) (m : List (String × JsonVal))
    (hm : confMapOf (goUnmarshalMap an.Conf) = some m)
    (herr : (TmplText an.tmpl as).2 = some e)
    (hsame : (TmplText an.tmpl as).1 = (r2 as).1) :
    an.Notify as = some (an, notifyOutcomeVal an as m)
    ∧ (an.Notify as).map Prod.snd
        = (({ an with tmpl := { ExternalURL := an.tmpl.ExternalURL, render := r2 } }
            : AirflowNotifier).Notify as).map Prod.snd := by
  have h2 : ({ an with tmpl := { ExternalURL := an.tmpl.ExternalURL, render := r2 } }
        : AirflowNotifier).Notify as
      = some ({ an with tmpl := { ExternalURL := an.tmpl.ExternalURL, render := r2 } },
          notifyOutcomeVal
            ({ an with tmpl := { ExternalURL := an.tmpl.ExternalURL, render := r2 } }
              : AirflowNotifier) as m) :=
    AirflowNotifier.notify_eq _ as m hm
  have hout : notifyOutcomeVal an as m
      = notifyOutcomeVal
          ({ an with tmpl := { ExternalURL := an.tmpl.ExternalURL, render := r2 } }
            : AirflowNotifier) as m := by
    unfold notifyOutcomeVal notifyCmdVal notifyBodyFieldsVal notifyTriggerVal
    rw [hsame]
    exact rfl
  refine ⟨an.notify_eq as m hm, ?_⟩
  rw [an.notify_eq as m hm, h2, Option.map_some', Option.map_some', hout]

/-- Witness for C6: the Scenario A notifier whose rendering reports a
template error still delivers, with the same outcome as the error-free
rendering. -/
theorem c6_witness :
    confMapOf (goUnmarshalMap anLocalErr.Conf) = some []
    ∧ (TmplText anLocalErr.tmpl [alert1]).2 = some "template execute error"
    ∧ (TmplText anLocalErr.tmpl [alert1]).1 = (idRender [alert1]).1
    ∧ (anLocalErr.Notify [alert1]
        = some (anLocalErr, notifyOutcomeVal anLocalErr [alert1] [])
      ∧ (anLocalErr.Notify [alert1]).map Prod.snd
          = (anLocalErrSwapped.Notify [alert1]).map Prod.snd) :=
  ⟨rfl, rfl, rfl,
    c6_render_error_nonfatal anLocalErr idRender [alert1] "template execute error" []
      rfl rfl rfl⟩

/-- Claim C7: `Notify` is deterministic: two calls on the same notifier with
the same alert batch (hence the same template state and sender behavior)
yield the same serialized outbound body, and the same outcome entirely. -/
theorem c7_deterministic_bodies (an : AirflowNotifier) (as : List Alert)
    (an1 an2 : AirflowNotifier) (o1 o2 : NotifyOutcome)
    (h1 : an.Notify as = some (an1, o1)) (h2 : an.Notify as = some (an2, o2)) :
    o1.cmd.Body = o2.cmd.Body ∧ o1 = o2 := by
  rw [h1] at h2
  obtain ⟨-, h4⟩ := Prod.mk.injEq .. |>.mp (Option.some.injEq .. |>.mp h2)
  rw [h4]
  exact ⟨rfl, rfl⟩

/-- Witness for C7: two identical Scenario A calls produce the same body and
outcome. -/
theorem c7_witness :
    anLocal.Notify [alert1] = some (anLocal, notifyOutcomeVal anLocal [alert1] [])
    ∧ (notifyOutcomeVal anLocal [alert1] []).cmd.Body
        = (notifyOutcomeVal anLocal [alert1] []).cmd.Body
    ∧ notifyOutcomeVal anLocal [alert1] [] = notifyOutcomeVal anLocal [alert1] [] := by
  have h : anLocal.Notify [alert1] = some (anLocal, notifyOutcomeVal anLocal [alert1] []) :=
    AirflowNotifier.notify_eq anLocal [alert1] [] rfl
  have hc := c7_deterministic_bodies anLocal [alert1] anLocal anLocal
    (notifyOutcomeVal anLocal [alert1] []) (notifyOutcomeVal anLocal [alert1] []) h h
  exact ⟨h, hc.1, hc.2⟩

/-- Claim C8: a non-panicking `Notify` call returns the notifier unchanged:
every configuration field (URL, DagID, User, Password, RunId, LogicalDate,
State, Conf), the embedded identity, the sender and the template state are
those of the receiver, and a subsequent call on the returned notifier behaves
identically, so no per-call state persists. -/
theorem c8_config_immutable (an : AirflowNotifier) (as : List Alert)
    (an' : AirflowNotifier) (o : NotifyOutcome) (h : an.Notify as = some (an', o)) :
    an' = an ∧ an'.URL = an.URL ∧ an'.DagID = an.DagID ∧ an'.User = an.User
    ∧ an'.Password = an.Password ∧ an'.RunId = an.RunId
    ∧ an'.LogicalDate = an.LogicalDate ∧ an'.State = an.State ∧ an'.Conf = an.Conf
    ∧ an'.toBase = an.toBase ∧ an'.ns = an.ns ∧ an'.tmpl = an.tmpl
    ∧ (∀ as2, an'.Notify as2 = an.Notify as2) := by
  obtain ⟨m, -, han, -⟩ := an.notify_some_inv as an' o h
  subst han
  exact ⟨rfl, rfl, rfl, rfl, rfl, rfl, rfl, rfl, rfl, rfl, rfl, rfl, fun _ => rfl⟩

/-- Witness for C8: the Scenario A call returns the unchanged notifier. -/
theorem c8_witness :
    anLocal.Notify [alert1] = some (anLocal, notifyOutcomeVal anLocal [alert1] [])
    ∧ anLocal = anLocal
    ∧ (∀ as2, anLocal.Notify as2 = anLocal.Notify as2) := by
  have h : anLocal.Notify [alert1] = some (anLocal, notifyOutcomeVal anLocal [alert1] []) :=
    AirflowNotifier.notify_eq anLocal [alert1] [] rfl
  have hc := c8_config_immutable anLocal [alert1] anLocal
    (notifyOutcomeVal anLocal [alert1] []) h
  exact ⟨h, hc.1, hc.2.2.2.2.2.2.2.2.2.2.2.2⟩

/-- Claim C9 (counterexample): the reachable conf setting `null` does not
parse as a JSON object (it parses as the JSON literal null), yet `Notify`
does not substitute an empty object: `json.Unmarshal` succeeds leaving the
map nil and the subsequent `trigger` assignment panics, so the call fails
(`none`) and nothing is delivered. -/
theorem c9_counterexample :
    NewAirflowConfig chanConfNull decId = Except.ok cfgConfNull
    ∧ cfgConfNull.Conf = "null"
    ∧ parseJsonVal cfgConfNull.Conf = some JsonVal.null
    ∧ goUnmarshalMap cfgConfNull.Conf = UnmarshalMapRes.okNil
    ∧ anConfNull.Notify [alert1] = none :=
  ⟨rfl, rfl, rfl, rfl, rfl⟩

/-- Claim C9 (amended): if the conf setting is absent or `json.Unmarshal`
reports an error on it (any input that is not valid JSON, or valid JSON of a
non-object, non-null kind), `Notify` does not fail: it substitutes an empty
object, the body conf member holds only the trigger entry, and delivery still
proceeds.  (For the JSON literal null, unmarshalling succeeds with a nil map
and the trigger assignment panics instead.) -/
theorem c9_conf_error_fallback (an : AirflowNotifier) (as : List Alert)
    (h : goUnmarshalMap an.Conf = UnmarshalMapRes.err) :
    an.Notify as = some (an, notifyOutcomeVal an as [])
    ∧ lookupField "conf" (notifyOutcomeVal an as []).bodyJSON.objFields
        = some (JsonVal.obj [("trigger", notifyTriggerVal an as)])
    ∧ (notifyOutcomeVal an as []).err = an.ns (notifyOutcomeVal an as []).cmd := by
  have hm : confMapOf (goUnmarshalMap an.Conf) = some [] := by
    rw [h]
    rfl
  refine ⟨an.notify_eq as [] hm, ?_, rfl⟩
  show lookupField "conf" (notifyBodyFieldsVal an as []) = _
  rw [(lookupField_notifyBodyFields an as []).1]
  exact rfl

/-- Witness for C9: the Scenario A configuration has no conf setting, its
conf string is empty and fails to unmarshal, and `Notify` proceeds with only
the trigger entry. -/
theorem c9_witness :
    goUnmarshalMap anLocal.Conf = UnmarshalMapRes.err
    ∧ (anLocal.Notify [alert1] = some (anLocal, notifyOutcomeVal anLocal [alert1] [])
      ∧ lookupField "conf" (notifyOutcomeVal anLocal [alert1] []).bodyJSON.objFields
          = some (JsonVal.obj [("trigger", notifyTriggerVal anLocal [alert1])])
      ∧ (notifyOutcomeVal anLocal [alert1] []).err
          = anLocal.ns (notifyOutcomeVal anLocal [alert1] []).cmd) :=
  ⟨rfl, c9_conf_error_fallback anLocal [alert1] rfl⟩

/-- Claim C10: `NewAirflowConfig` stores the conf setting with every
single-quote character replaced by a double quote: the stored string has the
same length, agrees with the original everywhere except that each
single-quote position holds a double quote, and contains no single-quote
character at all (so apostrophes in the data are rewritten too). -/
theorem c10_conf_quote_rewrite (cfg : NotificationChannelConfig) (d : GetDecryptedValueFn)
    (c : AirflowConfig) (h : NewAirflowConfig cfg d = Except.ok c) :
    c.Conf = stringsReplaceAllChar ((cfg.Settings.Get "conf").MustString) squoteChar quoteChar
    ∧ c.Conf.data.length = ((cfg.Settings.Get "conf").MustString).data.length
    ∧ (∀ i : Nat, ∀ h1 : i < c.Conf.data.length,
        ∀ h2 : i < ((cfg.Settings.Get "conf").MustString).data.length,
        c.Conf.data.get ⟨i, h1⟩
          = (if ((cfg.Settings.Get "conf").MustString).data.get ⟨i, h2⟩ = squoteChar
             then quoteChar
             else ((cfg.Settings.Get "conf").MustString).data.get ⟨i, h2⟩))
    ∧ (∀ ch, ch ∈ c.Conf.data → ch ≠ squoteChar) := by
  obtain ⟨rfl, -, -⟩ := NewAirflowConfig_ok_inv cfg d c h
  refine ⟨rfl, by simp [stringsReplaceAllChar], ?_, ?_⟩
  · intro i h1 h2
    show (List.map _ _).get ⟨i, _⟩ = _
    simp [List.get_eq_getElem, List.getElem_map]
  · intro ch hch
    have hch' : ch ∈ List.map
        (fun ch => if ch = squoteChar then quoteChar else ch)
        ((cfg.Settings.Get "conf").MustString).data := hch
    obtain ⟨a, -, rfl⟩ := List.mem_map.mp hch'
    by_cases ha : a = squoteChar
    · simp only [ha, if_pos]
      decide
    · simp only [if_neg ha]
      exact ha

/-- Witness for C10: a conf document written with single quotes is stored
with the quotes rewritten, the positional characterization holds, and the
stored string then unmarshals as a JSON object at `Notify` time. -/
theorem c10_witness :
    NewAirflowConfig chanConfQuoted decId = Except.ok cfgConfQuoted
    ∧ (cfgConfQuoted.Conf
        = stringsReplaceAllChar ((chanConfQuoted.Settings.Get "conf").MustString)
            squoteChar quoteChar
      ∧ cfgConfQuoted.Conf.data.length
          = ((chanConfQuoted.Settings.Get "conf").MustString).data.length
      ∧ (∀ i : Nat, ∀ h1 : i < cfgConfQuoted.Conf.data.length,
          ∀ h2 : i < ((chanConfQuoted.Settings.Get "conf").MustString).data.length,
          cfgConfQuoted.Conf.data.get ⟨i, h1⟩
            = (if ((chanConfQuoted.Settings.Get "conf").MustString).data.get ⟨i, h2⟩
                  = squoteChar
               then quoteChar
               else ((chanConfQuoted.Settings.Get "conf").MustString).data.get ⟨i, h2⟩))
      ∧ (∀ ch, ch ∈ cfgConfQuoted.Conf.data → ch ≠ squoteChar))
    ∧ goUnmarshalMap cfgConfQuoted.Conf = UnmarshalMapRes.okMap [("a", JsonVal.str "b")] :=
  ⟨rfl, c10_conf_quote_rewrite chanConfQuoted decId cfgConfQuoted rfl, rfl⟩

example : parseJsonVal "null" = some JsonVal.null := rfl
example : parseJsonVal "" = none := rfl
example : goUnmarshalMap "" = UnmarshalMapRes.err := rfl
example : goUnmarshalMap "null" = UnmarshalMapRes.okNil := rfl
example : goUnmarshalMap " \x7b \"a\" : \"b\" \x7d " =
    UnmarshalMapRes.okMap [("a", JsonVal.str "b")] := rfl
example : goUnmarshalMap "[1, 2]" = UnmarshalMapRes.err := rfl
example : goUnmarshalMap "\x7b\"a\": 01\x7d" = UnmarshalMapRes.err := rfl
example : goUnmarshalMap "\x7b\"a\": -1.5e3, \"b\": [true, false, null]\x7d" =
    UnmarshalMapRes.okMap [("a", JsonVal.num "-1.5e3"),
      ("b", JsonVal.arr [JsonVal.bool true, JsonVal.bool false, JsonVal.null])] := rfl
